/-
Verification of the medicine reminder bot against its design document.

The development shallowly embeds the relevant parts of the source:
  * `app/utils/helpers.py` : time and dosage validation (regex matching is
    compiled by hand into list pattern matching; character classes such as
    [0-9] are modelled over ASCII, and str.strip over ASCII whitespace);
  * `app/database.py` : the SQLite-backed store as pure functions over a
    `Store` record.  Each public method catches every exception and returns a
    fail-closed default; this is modelled by a Boolean error-injection flag.
    NOTE: the connection never executes PRAGMA foreign_keys = ON, and the
    Python sqlite3 driver leaves foreign-key enforcement OFF by default, so
    the ON DELETE CASCADE clauses declared in the schema never fire at run
    time.  The embedding reproduces that: deletes remove only the rows that
    the DELETE statement itself names.
  * `app/reminder_service.py` : one tick of the delivery loop, with the
    timezone rendering (pytz + strftime) and the Telegram send call taken as
    function parameters.
  * `app/medicine_bot.py` : the conversation handlers that the claims are
    about.  Inbound texts are exact strings; outbound messages are modelled
    by the `Reply` enumeration (one constructor per reply_text call site,
    carrying the data interpolated into the message), and reply keyboards by
    a list of button captions.
-/
import Mathlib

set_option maxHeartbeats 1000000

/-- Literal strings carried over verbatim from the bot source: button captions,
confirmation tokens and message fragments. -/
def btnCancel : String := "‚ùå –°–∫–∞—Å—É–≤–∞—Ç–∏"
def btnSave : String := "‚úÖ –ó–±–µ—Ä–µ–≥—Ç–∏"
def btnEdit : String := "‚úèÔ∏è –ó–º—ñ–Ω–∏—Ç–∏"
def btnYesDelete : String := "‚úÖ –¢–∞–∫, –≤–∏–¥–∞–ª–∏—Ç–∏"
def tokenDA2No : String := "‚ùå –ù–Ü, –Ω–µ –≤–∏–¥–∞–ª—è—Ç–∏"
def tokenDA2 : String := "üö® –ü–Ü–î–¢–í–ï–†–î–ñ–£–Æ –í–ò–î–ê–õ–ï–ù–ù–Ø"
def tokenDA1No : String := "‚ùå –ù–Ü, —Å–∫–∞—Å—É–≤–∞—Ç–∏"
def tokenDA1 : String := "‚ö†Ô∏è –¢–ê–ö, –≤–∏–¥–∞–ª–∏—Ç–∏ –í–°–ï"
def btnMorning : String := "–†–∞–Ω–æ–∫ 08:00"
def btnDay : String := "–î–µ–Ω—å 14:00"
def btnEvening : String := "–í–µ—á—ñ—Ä 20:00"
def btnMainMenu : String := "üè† –ì–æ–ª–æ–≤–Ω–µ –º–µ–Ω—é"
def btnNo : String := "–ù—ñ"
def btnYes : String := "–¢–∞–∫"
def optDeleteWholePre : String := "üóëÔ∏è –í–∏–¥–∞–ª–∏—Ç–∏ –≤—Å—ñ –ª—ñ–∫–∏ "
def optDelReminderPre : String := "üïê –í–∏–¥–∞–ª–∏—Ç–∏ –Ω–∞–≥–∞–¥—É–≤–∞–Ω–Ω—è "
def remMsgPre : String := "💊 "
def remMsgMid : String := " - Час прийняти "
def pivLit : String := "пів"
def exDosage : String := "1 таблетка"
def unitsFull : List String := ["таблетка", "таблетки", "таб", "таб.", "капсула", "капсули", "кап", "кап.", "крапл", "краплі", "мл", "мл.", "г", "г."]
def unitsTabCap : List String := ["таблетка", "таблетки", "капсула", "капсули"]

/-! ## Basic character and string helpers (Python semantics) -/

/-- The character class that `str.strip()` removes, restricted to ASCII. -/
def pyWS (c : Char) : Bool :=
  c = ' ' || c = Char.ofNat 9 || c = Char.ofNat 10 ||
  c = Char.ofNat 13 || c = Char.ofNat 11 || c = Char.ofNat 12

/-- Python `str.strip()` on a character list. -/
def pyStrip (l : List Char) : List Char :=
  ((l.dropWhile pyWS).reverse.dropWhile pyWS).reverse

/-- The regex character class `[0-9]` (ASCII digits). -/
def isDig (c : Char) : Bool := decide (48 ≤ c.toNat ∧ c.toNat ≤ 57)

/-- Numeric value of an ASCII digit, as computed by Python `int`. -/
def dval (c : Char) : Nat := c.toNat - 48

/-- Digit character, as produced by `format` for one decimal digit.
Only ever applied to numbers below ten. -/
def digitChar (n : Nat) : Char :=
  match n with
  | 0 => '0' | 1 => '1' | 2 => '2' | 3 => '3' | 4 => '4'
  | 5 => '5' | 6 => '6' | 7 => '7' | 8 => '8' | _ => '9'

/-- The Python f-string `"{h:02d}:{m:02d}"` for `h`, `m` below one hundred. -/
def fmtHM (h m : Nat) : String :=
  String.mk [digitChar (h / 10), digitChar (h % 10), ':',
             digitChar (m / 10), digitChar (m % 10)]

/-! ## Time validation (`validate_time_format` in `app/utils/helpers.py`)

The four anchored regular expressions are compiled into list pattern
matching; an anchored alternation whose branches have distinct lengths is
decided by the length of the subject. -/

/-- Pattern 1: `^([0-9]|[01][0-9]|2[0-3]):([0-5][0-9])$`. -/
def pColon : List Char → Option (Nat × Nat)
  | [h, c, m1, m2] =>
    if c = ':' ∧ isDig h ∧ isDig m1 ∧ dval m1 ≤ 5 ∧ isDig m2 then
      some (dval h, 10 * dval m1 + dval m2)
    else none
  | [h1, h2, c, m1, m2] =>
    if c = ':' ∧ isDig h1 ∧ isDig h2 ∧ (dval h1 ≤ 1 ∨ (dval h1 = 2 ∧ dval h2 ≤ 3)) ∧
        isDig m1 ∧ dval m1 ≤ 5 ∧ isDig m2 then
      some (10 * dval h1 + dval h2, 10 * dval m1 + dval m2)
    else none
  | _ => none

/-- Pattern 2: `^([0-9]|[01][0-9]|2[0-3])$`. -/
def pHour : List Char → Option Nat
  | [h] => if isDig h then some (dval h) else none
  | [h1, h2] =>
    if isDig h1 ∧ isDig h2 ∧ (dval h1 ≤ 1 ∨ (dval h1 = 2 ∧ dval h2 ≤ 3)) then
      some (10 * dval h1 + dval h2)
    else none
  | _ => none

/-- Pattern 3: `^([0-9]{3,4})$`, split into hour and minute digits. -/
def pCompact : List Char → Option (Nat × Nat)
  | [a, b, c] =>
    if isDig a ∧ isDig b ∧ isDig c then some (dval a, 10 * dval b + dval c) else none
  | [a, b, c, d] =>
    if isDig a ∧ isDig b ∧ isDig c ∧ isDig d then
      some (10 * dval a + dval b, 10 * dval c + dval d)
    else none
  | _ => none

/-- Pattern 4: `^([0-9])([0-9]{2})$`. -/
def pHMM : List Char → Option (Nat × Nat)
  | [a, b, c] =>
    if isDig a ∧ isDig b ∧ isDig c then some (dval a, 10 * dval b + dval c) else none
  | _ => none

/-- Fourth and last step of `validate_time_format`. -/
def vtf4 (t : List Char) : Option String :=
  match pHMM t with
  | some (h, m) => if h ≤ 23 ∧ m ≤ 59 then some (fmtHM h m) else none
  | none => none

/-- Third step: compact 3-4 digit form, falling through to pattern 4. -/
def vtf3 (t : List Char) : Option String :=
  match pCompact t with
  | some (h, m) => if h ≤ 23 ∧ m ≤ 59 then some (fmtHM h m) else vtf4 t
  | none => vtf4 t

/-- Second step: bare hour, falling through to pattern 3. -/
def vtf2 (t : List Char) : Option String :=
  match pHour t with
  | some h => if h ≤ 23 then some (fmtHM h 0) else vtf3 t
  | none => vtf3 t

/-- First step: colon form, falling through to pattern 2. -/
def vtf1 (t : List Char) : Option String :=
  match pColon t with
  | some (h, m) => if h ≤ 23 ∧ m ≤ 59 then some (fmtHM h m) else vtf2 t
  | none => vtf2 t

/-- `validate_time_format` from `app/utils/helpers.py`: strip the input and
try the four patterns in order. -/
def validate_time_format (s : String) : Option String :=
  vtf1 (pyStrip s.data)

/-! ## The time grammar as the specification words it -/

/-- A bare hour: one or two digits whose value is at most 23. -/
def bareHourB : List Char → Bool
  | [h] => isDig h && decide (dval h ≤ 23)
  | [h1, h2] => isDig h1 && isDig h2 && decide (10 * dval h1 + dval h2 ≤ 23)
  | _ => false

/-- An `H:MM` or `HH:MM` colon form with hour at most 23 and minute at most 59. -/
def colonFormB : List Char → Bool
  | [h, c, m1, m2] =>
    decide (c = ':') && isDig h && decide (dval h ≤ 23) && isDig m1 && isDig m2 &&
      decide (10 * dval m1 + dval m2 ≤ 59)
  | [h1, h2, c, m1, m2] =>
    decide (c = ':') && isDig h1 && isDig h2 && decide (10 * dval h1 + dval h2 ≤ 23) &&
      isDig m1 && isDig m2 && decide (10 * dval m1 + dval m2 ≤ 59)
  | _ => false

/-- A compact 3-4 digit form whose hour is at most 23 and minute at most 59. -/
def compactFormB : List Char → Bool
  | [a, b, c] =>
    isDig a && isDig b && isDig c && decide (dval a ≤ 23) &&
      decide (10 * dval b + dval c ≤ 59)
  | [a, b, c, d] =>
    isDig a && isDig b && isDig c && isDig d && decide (10 * dval a + dval b ≤ 23) &&
      decide (10 * dval c + dval d ≤ 59)
  | _ => false

/-- The time grammar of the specification: bare hour, colon form, or compact form. -/
def timeGrammarB (t : List Char) : Bool :=
  bareHourB t || colonFormB t || compactFormB t

/-- Canonical shape `HH:MM` with hour in [0,23] and minute in [0,59]. -/
def canonicalHHMMB (r : String) : Bool :=
  match r.data with
  | [a, b, c, d, e] =>
    isDig a && isDig b && decide (c = ':') && isDig d && isDig e &&
      decide (10 * dval a + dval b ≤ 23) && decide (10 * dval d + dval e ≤ 59)
  | _ => false


/-! ## Dosage validation (`validate_dosage` in `app/utils/helpers.py`) -/

/-- Lower-casing as used by `re.IGNORECASE` on the characters that occur
here: ASCII letters and the standard Cyrillic block. -/
def pyLower (c : Char) : Char :=
  if 1040 ≤ c.toNat ∧ c.toNat ≤ 1071 then Char.ofNat (c.toNat + 32)
  else if c.toNat = 1025 then Char.ofNat 1105
  else if c.toNat = 1030 then Char.ofNat 1110
  else if 65 ≤ c.toNat ∧ c.toNat ≤ 90 then Char.ofNat (c.toNat + 32)
  else c

/-- First dosage pattern:
`^\d+(\.\d+)?\s*(<full unit alternation>)$` with IGNORECASE. -/
def dosagePat1 (t0 : List Char) : Bool :=
  let t := t0.map pyLower
  let ds := t.takeWhile isDig
  if ds.isEmpty then false
  else
    let r1 := t.drop ds.length
    let r2 :=
      match r1 with
      | '.' :: tail =>
        let fs := tail.takeWhile isDig
        if fs.isEmpty then r1 else tail.drop fs.length
      | _ => r1
    let r3 := r2.dropWhile pyWS
    unitsFull.any (fun u => r3 = u.data)

/-- Second dosage pattern: `^<half>\s*(<tablet or capsule>)$` with IGNORECASE. -/
def dosagePat2 (t0 : List Char) : Bool :=
  let t := t0.map pyLower
  if t.take 3 = pivLit.data then
    let r := (t.drop 3).dropWhile pyWS
    unitsTabCap.any (fun u => r = u.data)
  else false

/-- Third dosage pattern: `^\d+/\d+\s*(<tablet or capsule>)$` with IGNORECASE. -/
def dosagePat3 (t0 : List Char) : Bool :=
  let t := t0.map pyLower
  let ds := t.takeWhile isDig
  if ds.isEmpty then false
  else
    match t.drop ds.length with
    | '/' :: r =>
      let ds2 := r.takeWhile isDig
      if ds2.isEmpty then false
      else unitsTabCap.any (fun u => (r.drop ds2.length).dropWhile pyWS = u.data)
    | _ => false

/-- Whether the stripped dosage matches one of the three unit patterns. -/
def dosagePatterns (t : List Char) : Bool :=
  dosagePat1 t || dosagePat2 t || dosagePat3 t

/-- `validate_dosage` from `app/utils/helpers.py`: strip, reject empty, accept
a unit-pattern match, otherwise accept anything of length at most 50 (with a
logged warning), and reject the rest. -/
def validate_dosage (s : String) : Option String :=
  let t := pyStrip s.data
  if t.isEmpty then none
  else if dosagePatterns t then some (String.mk t)
  else if t.length ≤ 50 then some (String.mk t)
  else none


/-! ## Python `int()` on the first dot-separated field of a selection -/

/-- Digit run as accepted by Python `int`: digits with single underscores
allowed between digits. Returns the digits with underscores removed. -/
def pyIntDigits : List Char → Option (List Char)
  | [] => none
  | [c] => if isDig c then some [c] else none
  | c :: '_' :: rest =>
    if isDig c then (pyIntDigits rest).map (fun ds => c :: ds) else none
  | c :: rest =>
    if isDig c then (pyIntDigits rest).map (fun ds => c :: ds) else none

/-- Value of a list of decimal digits. -/
def digitsToNat (l : List Char) : Nat :=
  l.foldl (fun a c => 10 * a + dval c) 0

/-- Python `int(s)`: strip whitespace, optional sign, digit run. -/
def pyInt (s : String) : Option Int :=
  match pyStrip s.data with
  | '+' :: rest => (pyIntDigits rest).map (fun ds => (digitsToNat ds : Int))
  | '-' :: rest => (pyIntDigits rest).map (fun ds => -(digitsToNat ds : Int))
  | t => (pyIntDigits t).map (fun ds => (digitsToNat ds : Int))

/-- Python `selection_text.split(".")[0]`: the prefix before the first dot. -/
def splitDotHead (l : List Char) : List Char := l.takeWhile (fun c => c ≠ '.')


/-! ## The persistent store (`app/database.py`)

Rows of the four tables, with AUTOINCREMENT counters carried in the store.
`sent_at` timestamps are seconds on the store clock. -/

structure UserRow where
  telegram_id : Int
  username : Option String
  timezone : String
deriving DecidableEq

structure MedicineRow where
  id : Nat
  user_id : Int
  name : String
deriving DecidableEq

structure ReminderRow where
  id : Nat
  medicine_id : Nat
  time : String
  dosage : String
  active : Bool
deriving DecidableEq

structure LogRow where
  id : Nat
  reminder_id : Nat
  sent_at : Int
deriving DecidableEq

structure Store where
  users : List UserRow
  medicines : List MedicineRow
  reminders : List ReminderRow
  logs : List LogRow
  nextMedId : Nat
  nextRemId : Nat
  nextLogId : Nat
deriving DecidableEq

/-- Reminder dictionary as returned inside medicine listings. -/
structure ReminderView where
  id : Nat
  time : String
  dosage : String
  active : Bool
deriving DecidableEq

/-- Medicine dictionary with grouped reminders. -/
structure MedicineView where
  id : Nat
  name : String
  reminders : List ReminderView
deriving DecidableEq

/-- One row of the active-reminder join used by the delivery engine. -/
structure ActiveReminderRow where
  reminder_id : Nat
  time : String
  dosage : String
  medicine_name : String
  telegram_id : Int
  timezone : String
deriving DecidableEq

namespace Database

/-- `add_user`: INSERT OR REPLACE INTO users. The `err` flag models the
catch-all exception handler (storage failure), which returns False. -/
def add_user (err : Bool) (s : Store) (tid : Int) (username : Option String)
    (tz : String) : Bool × Store :=
  if err then (false, s)
  else (true, { s with users :=
    (s.users.filter (fun u => u.telegram_id ≠ tid) ++ [⟨tid, username, tz⟩]) })

/-- `get_user`: first users row with the given id, as a dictionary. -/
def get_user (err : Bool) (s : Store) (tid : Int) : Option UserRow :=
  if err then none
  else s.users.find? (fun u => u.telegram_id == tid)

/-- `add_medicine`: INSERT INTO medicines, returning lastrowid. -/
def add_medicine (err : Bool) (s : Store) (uid : Int) (name : String) :
    Option Nat × Store :=
  if err then (none, s)
  else (some s.nextMedId,
    { s with medicines := s.medicines ++ [⟨s.nextMedId, uid, name⟩],
             nextMedId := s.nextMedId + 1 })

/-- `add_reminder`: INSERT INTO reminders with active defaulting to 1.
Foreign keys are not enforced, so no existence check on the medicine. -/
def add_reminder (err : Bool) (s : Store) (mid : Nat) (time dosage : String) :
    Bool × Store :=
  if err then (false, s)
  else (true, { s with
    reminders := (s.reminders ++ [⟨s.nextRemId, mid, time, dosage, true⟩]),
    nextRemId := s.nextRemId + 1 })

/-- Reminders of one medicine, as listed by the LEFT JOIN in
`get_user_medicines`. The SQL ORDER BY clauses only affect presentation
order and are not modelled. -/
def medReminders (s : Store) (mid : Nat) : List ReminderView :=
  (s.reminders.filter (fun r => r.medicine_id == mid)).map
    (fun r => ⟨r.id, r.time, r.dosage, r.active⟩)

/-- `get_user_medicines`: the user's medicines with grouped reminders. -/
def get_user_medicines (err : Bool) (s : Store) (uid : Int) : List MedicineView :=
  if err then []
  else (s.medicines.filter (fun m => m.user_id == uid)).map
    (fun m => ⟨m.id, m.name, medReminders s m.id⟩)

/-- `delete_medicine`: DELETE FROM medicines WHERE id AND user_id match;
returns rowcount > 0. PRAGMA foreign_keys is never enabled, so the declared
ON DELETE CASCADE does not fire: reminders and logs rows stay in place. -/
def delete_medicine (err : Bool) (s : Store) (mid : Nat) (uid : Int) :
    Bool × Store :=
  if err then (false, s)
  else
    let hit := fun (m : MedicineRow) => m.id == mid && m.user_id == uid
    (!(s.medicines.filter hit).isEmpty,
      { s with medicines := s.medicines.filter (fun m => !(hit m)) })

/-- `delete_reminder`: DELETE FROM reminders WHERE id matches and the owning
medicine belongs to the user; returns rowcount > 0. No cascade (see above). -/
def delete_reminder (err : Bool) (s : Store) (rid : Nat) (uid : Int) :
    Bool × Store :=
  if err then (false, s)
  else
    let hit := fun (r : ReminderRow) => r.id == rid &&
      s.medicines.any (fun m => m.id == r.medicine_id && m.user_id == uid)
    (!(s.reminders.filter hit).isEmpty,
      { s with reminders := s.reminders.filter (fun r => !(hit r)) })

/-- `get_medicine_with_reminders`: one medicine of the user, or none. -/
def get_medicine_with_reminders (err : Bool) (s : Store) (mid : Nat) (uid : Int) :
    Option MedicineView :=
  if err then none
  else
    match s.medicines.find? (fun m => m.id == mid && m.user_id == uid) with
    | some m => some ⟨m.id, m.name, medReminders s m.id⟩
    | none => none

/-- `delete_all_user_medicines`: count the user's medicines, then DELETE FROM
medicines for the user, returning the count. The source comment expects the
reminders to go via CASCADE, but foreign keys are off, so they stay. -/
def delete_all_user_medicines (err : Bool) (s : Store) (uid : Int) : Nat × Store :=
  if err then (0, s)
  else ((s.medicines.filter (fun m => m.user_id == uid)).length,
    { s with medicines := s.medicines.filter (fun m => !(m.user_id == uid)) })

/-- `get_all_active_reminders`: reminders JOIN medicines JOIN users, active only. -/
def get_all_active_reminders (err : Bool) (s : Store) : List ActiveReminderRow :=
  if err then []
  else
    (s.reminders.filter (fun r => r.active)).flatMap (fun r =>
      (s.medicines.filter (fun m => m.id == r.medicine_id)).flatMap (fun m =>
        (s.users.filter (fun u => u.telegram_id == m.user_id)).map (fun u =>
          ⟨r.id, r.time, r.dosage, m.name, u.telegram_id, u.timezone⟩)))

/-- `log_reminder_sent`: INSERT INTO reminder_logs with sent_at = now. -/
def log_reminder_sent (err : Bool) (s : Store) (rid : Nat) (now : Int) :
    Bool × Store :=
  if err then (false, s)
  else (true, { s with
    logs := (s.logs ++ [⟨s.nextLogId, rid, now⟩]),
    nextLogId := s.nextLogId + 1 })

/-- `get_recent_reminder_logs`: logs of the reminder with
`datetime(sent_at) > datetime(now, -minutes)` (strict comparison). -/
def get_recent_reminder_logs (err : Bool) (s : Store) (rid : Nat)
    (minutes : Int) (now : Int) : List LogRow :=
  if err then []
  else s.logs.filter (fun l => l.reminder_id == rid && now - minutes * 60 < l.sent_at)

end Database

/-! ## The reminder delivery engine (`app/reminder_service.py`) -/

/-- `format_reminder_message` from `app/utils/helpers.py`. -/
def format_reminder_message (medicine_name dosage time : String) : String :=
  remMsgPre ++ time ++ remMsgMid ++ medicine_name ++ " (" ++ dosage ++ ")"

/-- One Notifier invocation performed by a tick (one `send_message` call). -/
structure SentRecord where
  reminder_id : Nat
  chat_id : Int
  text : String
deriving DecidableEq

/-- The body of the per-reminder loop of `check_and_send_reminders`.
`tz` renders the tick's reference instant in a named time zone as HH:MM
(pytz + strftime); `send` is the Telegram call and returns success. -/
def tickStep (tz : String → Int → String) (send : Int → String → Bool) (now : Int)
    (acc : Store × List SentRecord) (r : ActiveReminderRow) : Store × List SentRecord :=
  if tz r.timezone now = r.time then
    if (Database.get_recent_reminder_logs false acc.1 r.reminder_id 2 now).isEmpty then
      let msg := format_reminder_message r.medicine_name r.dosage r.time
      if send r.telegram_id msg then
        ((Database.log_reminder_sent false acc.1 r.reminder_id now).2,
          acc.2 ++ [⟨r.reminder_id, r.telegram_id, msg⟩])
      else (acc.1, acc.2 ++ [⟨r.reminder_id, r.telegram_id, msg⟩])
    else acc
  else acc

/-- `check_and_send_reminders`: one tick of the delivery engine at reference
instant `now`, returning the updated store and the Notifier invocations. -/
def check_and_send_reminders (tz : String → Int → String)
    (send : Int → String → Bool) (now : Int) (s : Store) :
    Store × List SentRecord :=
  (Database.get_all_active_reminders false s).foldl (tickStep tz send now) (s, [])

/-! ## The conversation engine (`app/medicine_bot.py`)

States are the ConversationHandler states plus `conversationEnd` for
`ConversationHandler.END` (the main menu / Idle). -/

inductive ConvState where
  | selectingTimezone
  | addingMedicineName
  | addingMedicineTime
  | addingMedicineDosage
  | confirmingMedicine
  | addingMoreTimes
  | changingTimezone
  | deletingMedicineSelect
  | deletingReminderSelect
  | confirmingDeletion
  | confirmingDeleteAll
  | conversationEnd
deriving DecidableEq

/-- Outbound messages, one constructor per reply_text call site relevant to
the claims, carrying the data interpolated into the message text. -/
inductive Reply where
  | mainMenu
  | promptName
  | invalidName
  | promptTime (name : String)
  | invalidTime
  | promptDosage (name time : String)
  | invalidDosage
  | confirmAdd (name time dosage : String)
  | medicineSaved
  | saveError
  | confirmDeleteMedicine (name : String)
  | chooseWhatToDelete (name : String) (count : Nat)
  | invalidChoice
  | invalidFormat
  | noMedicines
  | deleteAllWarning (meds reminders : Nat)
  | deleteAllFinalWarning (meds : Nat)
  | deleteAllDone (count : Nat)
  | deleteAllError
  | deleteAllCancelled
  | deleteAllCancelledFinal
deriving DecidableEq

/-- `context.user_data`: absent keys are `none` (`false` for the flag read
with a falsy default). `medicine_id` stores the result of `add_medicine`,
which itself can be None, hence the nested option. -/
structure UserData where
  medicine_name : Option String
  medicine_time : Option String
  medicine_dosage : Option String
  medicine_id : Option (Option Nat)
  medicines_for_deletion : Option (List MedicineView)
  selected_medicine : Option MedicineView
  deletion_type : Option String
  selected_reminder : Option ReminderView
  final_delete_all_confirmation : Bool
deriving DecidableEq

/-- `context.user_data.clear()` / a fresh user_data dictionary. -/
def emptyUD : UserData := ⟨none, none, none, none, none, none, none, none, false⟩

/-- Result of one handler invocation: emitted replies, the button captions
offered with the last reply (empty when the reply carries no keyboard),
the returned conversation state, and the updated session and store. -/
structure HandlerResult where
  replies : List Reply
  keyboard : List String
  state : ConvState
  ud : UserData
  store : Store
deriving DecidableEq

/-- An ASCII apostrophe, kept out of string literals. -/
def quoteS : String := (Char.ofNat 39).toString

/-- The main-menu keyboard shown by `show_main_menu`. -/
def mainMenuKb : List String := ["‚ûï –î–æ–¥–∞—Ç–∏ –ª—ñ–∫–∏", "üìã –ú–æ—ó –ª—ñ–∫–∏", "üóëÔ∏è –í–∏–¥–∞–ª–∏—Ç–∏ –ª—ñ–∫–∏", "üåç –ó–º—ñ–Ω–∏—Ç–∏ —á–∞—Å–æ–≤–∏–π –ø–æ—è—Å", "‚ùì –î–æ–ø–æ–º–æ–≥–∞"]

/-- Keyboard of the time-input step. -/
def timeKb : List String := [btnMorning, btnDay, btnEvening, btnCancel]

/-- Keyboard of the add-confirmation step. -/
def confirmKb : List String := [btnSave, btnEdit, btnCancel]

/-- Keyboard of the add-more-times question. -/
def moreKb : List String := [btnYes, btnNo, btnMainMenu]

/-- Keyboard of a single deletion confirmation. -/
def confirmDeleteKb : List String := [btnYesDelete, btnCancel]

/-- The whole-medicine option offered in the reminder picker:
the f-string wraps the medicine name in single quotes. -/
def deleteWholeOption (name : String) : String :=
  optDeleteWholePre ++ quoteS ++ name ++ quoteS

/-- A per-reminder option of the reminder picker: time and dosage. -/
def reminderOption (time dosage : String) : String :=
  optDelReminderPre ++ time ++ " - " ++ dosage

/-- `handle_medicine_name`: cancel, or validate the name (non-empty after
stripping, at most 100 characters) and move on to the time prompt. -/
def handle_medicine_name (text : String) (ud : UserData) (s : Store) :
    HandlerResult :=
  if text = btnCancel then
    ⟨[.mainMenu], mainMenuKb, .conversationEnd, ud, s⟩
  else
    let name := String.mk (pyStrip text.data)
    if name.data.isEmpty ∨ 100 < name.length then
      ⟨[.invalidName], [], .addingMedicineName, ud, s⟩
    else
      ⟨[.promptTime name], timeKb, .addingMedicineTime,
        { ud with medicine_name := some name }, s⟩

/-- `handle_medicine_time`: cancel, one of the three preset buttons, or the
time grammar; invalid input re-prompts in the same state. -/
def handle_medicine_time (text : String) (ud : UserData) (s : Store) :
    HandlerResult :=
  if text = btnCancel then
    ⟨[.mainMenu], mainMenuKb, .conversationEnd, ud, s⟩
  else
    let t : Option String :=
      if text = btnMorning then some "08:00"
      else if text = btnDay then some "14:00"
      else if text = btnEvening then some "20:00"
      else validate_time_format text
    match t with
    | none => ⟨[.invalidTime], [], .addingMedicineTime, ud, s⟩
    | some ts =>
      ⟨[.promptDosage (ud.medicine_name.getD "") ts], [btnCancel],
        .addingMedicineDosage, { ud with medicine_time := some ts }, s⟩

/-- `handle_medicine_dosage`: cancel, or dosage validation; invalid input
re-prompts in the same state. -/
def handle_medicine_dosage (text : String) (ud : UserData) (s : Store) :
    HandlerResult :=
  if text = btnCancel then
    ⟨[.mainMenu], mainMenuKb, .conversationEnd, ud, s⟩
  else
    match validate_dosage text with
    | none => ⟨[.invalidDosage], [], .addingMedicineDosage, ud, s⟩
    | some d =>
      ⟨[.confirmAdd (ud.medicine_name.getD "") (ud.medicine_time.getD "") d],
        confirmKb, .confirmingMedicine, { ud with medicine_dosage := some d }, s⟩

/-- `handle_medicine_confirmation`: cancel, edit (back to the name prompt),
or save.  Saving creates the medicine on first save (storing the returned id,
even when it is None), reuses the stored id afterwards, then adds the
reminder.  Persistence failures reply with the save-error message and end the
conversation WITHOUT clearing user_data.  `lastrowid` of zero would be falsy
in Python, hence the explicit zero test.  Any other input returns None, which
keeps the current conversation state. -/
def handle_medicine_confirmation (addMedErr addRemErr : Bool) (userId : Int)
    (text : String) (ud : UserData) (s : Store) : HandlerResult :=
  if text = btnCancel then
    ⟨[.mainMenu], mainMenuKb, .conversationEnd, ud, s⟩
  else if text = btnEdit then
    ⟨[.promptName], [btnCancel], .addingMedicineName, ud, s⟩
  else if text = btnSave then
    let step :=
      match ud.medicine_id with
      | none =>
        let r := Database.add_medicine addMedErr s userId (ud.medicine_name.getD "")
        (r.1, { ud with medicine_id := some r.1 }, r.2)
      | some m => (m, ud, s)
    match step with
    | (some m, ud1, s1) =>
      if m = 0 then
        ⟨[.saveError, .mainMenu], mainMenuKb, .conversationEnd, ud1, s1⟩
      else
        let r := Database.add_reminder addRemErr s1 m (ud.medicine_time.getD "")
          (ud.medicine_dosage.getD "")
        if r.1 then
          ⟨[.medicineSaved], moreKb, .addingMoreTimes, ud1, r.2⟩
        else
          ⟨[.saveError, .mainMenu], mainMenuKb, .conversationEnd, ud1, r.2⟩
    | (none, ud1, s1) =>
      ⟨[.saveError, .mainMenu], mainMenuKb, .conversationEnd, ud1, s1⟩
  else
    ⟨[], [], .confirmingMedicine, ud, s⟩

/-- `handle_medicine_selection_for_deletion`: parse the leading number of the
selection (int of the text before the first dot); on a valid index, select
the medicine and either go straight to the single confirmation (at most one
active reminder, deletion_type medicine) or list the per-reminder options. -/
def handle_medicine_selection_for_deletion (text : String) (ud : UserData)
    (s : Store) : HandlerResult :=
  if text = btnCancel then
    ⟨[.mainMenu], mainMenuKb, .conversationEnd, ud, s⟩
  else
    match pyInt (String.mk (splitDotHead text.data)) with
    | none => ⟨[.invalidFormat], [], .deletingMedicineSelect, ud, s⟩
    | some n =>
      let idx := n - 1
      let meds := ud.medicines_for_deletion.getD []
      if 0 ≤ idx then
        match meds[idx.toNat]? with
        | some m =>
          let active := m.reminders.filter (fun r => r.active)
          let ud1 := { ud with selected_medicine := some m }
          if active.length ≤ 1 then
            ⟨[.confirmDeleteMedicine m.name], confirmDeleteKb, .confirmingDeletion,
              { ud1 with deletion_type := some "medicine" }, s⟩
          else
            ⟨[.chooseWhatToDelete m.name active.length],
              (deleteWholeOption m.name ::
                (active.map (fun r => reminderOption r.time r.dosage) ++ [btnCancel])),
              .deletingReminderSelect, ud1, s⟩
        | none => ⟨[.invalidChoice], [], .deletingMedicineSelect, ud, s⟩
      else ⟨[.invalidChoice], [], .deletingMedicineSelect, ud, s⟩

/-- `handle_delete_all_medicines` (entry point of the delete-all flow):
no medicines ends the conversation; otherwise the first, broad warning is
shown with the counts and the conversation enters CONFIRMING_DELETE_ALL.
Nothing is deleted and user_data is not touched. -/
def handle_delete_all_medicines (userId : Int) (ud : UserData) (s : Store) :
    HandlerResult :=
  let meds := Database.get_user_medicines false s userId
  if meds.isEmpty then
    ⟨[.noMedicines, .mainMenu], mainMenuKb, .conversationEnd, ud, s⟩
  else
    ⟨[.deleteAllWarning meds.length
        ((meds.map (fun m => (m.reminders.filter (fun r => r.active)).length)).sum)],
      [tokenDA1, tokenDA1No], .confirmingDeleteAll, ud, s⟩

/-- `handle_delete_all_confirmation`: two stages distinguished by the
`final_delete_all_confirmation` flag.  Stage one accepts only the broad
confirmation token and then shows the second, differently worded warning;
stage two accepts only the explicit confirmation token and only then calls
`delete_all_user_medicines`.  Every other input deletes nothing. -/
def handle_delete_all_confirmation (userId : Int) (text : String)
    (ud : UserData) (s : Store) : HandlerResult :=
  if ud.final_delete_all_confirmation then
    if text = tokenDA2No then
      ⟨[.deleteAllCancelledFinal, .mainMenu], mainMenuKb, .conversationEnd, emptyUD, s⟩
    else if text ≠ tokenDA2 then
      ⟨[.invalidChoice], [], .confirmingDeleteAll, ud, s⟩
    else
      let r := Database.delete_all_user_medicines false s userId
      if 0 < r.1 then
        ⟨[.deleteAllDone r.1, .mainMenu], mainMenuKb, .conversationEnd, emptyUD, r.2⟩
      else
        ⟨[.deleteAllError, .mainMenu], mainMenuKb, .conversationEnd, emptyUD, r.2⟩
  else
    if text = tokenDA1No then
      ⟨[.deleteAllCancelled, .mainMenu], mainMenuKb, .conversationEnd, ud, s⟩
    else if text ≠ tokenDA1 then
      ⟨[.invalidChoice], [], .confirmingDeleteAll, ud, s⟩
    else
      ⟨[.deleteAllFinalWarning (Database.get_user_medicines false s userId).length],
        [tokenDA2, tokenDA2No], .confirmingDeleteAll,
        { ud with final_delete_all_confirmation := true }, s⟩

/-- Whether the delete-all conversation is still inside
CONFIRMING_DELETE_ALL or has ended. -/
inductive DAPhase where
  | confirming
  | ended
deriving DecidableEq

/-- One inbound message of the delete-all flow: after the conversation has
ended further messages are outside the flow and change nothing here. -/
def daStep (userId : Int) (st : DAPhase × UserData × Store) (text : String) :
    DAPhase × UserData × Store :=
  match st with
  | (.ended, ud, s) => (.ended, ud, s)
  | (.confirming, ud, s) =>
    let r := handle_delete_all_confirmation userId text ud s
    (if r.state = .conversationEnd then .ended else .confirming, r.ud, r.store)

/-- The delete-all flow from the first warning onwards, fed a message list. -/
def runDeleteAll (userId : Int) (ud : UserData) (s : Store)
    (inputs : List String) : DAPhase × UserData × Store :=
  inputs.foldl (daStep userId) (.confirming, ud, s)

/-! ## Concrete fixtures used by witnesses and counterexamples -/

/-- A store with one user, one medicine, one active reminder and one
delivery record for it (sent at second 0). -/
def sC2 : Store :=
  ⟨[⟨1, none, "Europe/Kiev"⟩], [⟨1, 1, "Aspirin"⟩],
   [⟨1, 1, "08:00", exDosage, true⟩], [⟨1, 1, 0⟩], 2, 2, 2⟩

/-- Same data with no delivery record yet. -/
def sFresh : Store :=
  ⟨[⟨1, none, "Europe/Kiev"⟩], [⟨1, 1, "Aspirin"⟩],
   [⟨1, 1, "08:30", exDosage, true⟩], [], 2, 2, 1⟩

/-- User 7 with three medicines and five reminders in total. -/
def sThree : Store :=
  ⟨[⟨7, none, "Europe/Kiev"⟩],
   [⟨1, 7, "A"⟩, ⟨2, 7, "B"⟩, ⟨3, 7, "C"⟩],
   [⟨1, 1, "08:00", "d1", true⟩, ⟨2, 1, "12:00", "d2", true⟩,
    ⟨3, 2, "09:00", "d3", true⟩, ⟨4, 3, "10:00", "d4", true⟩,
    ⟨5, 3, "21:00", "d5", true⟩],
   [], 4, 6, 1⟩

/-- A store whose only medicine belongs to user 2. -/
def sOther : Store :=
  ⟨[⟨1, none, "Europe/Kiev"⟩, ⟨2, none, "Europe/Kiev"⟩], [⟨5, 2, "B"⟩],
   [⟨9, 5, "10:00", "d", true⟩], [], 6, 10, 1⟩

/-- A draft with all three fields captured, no medicine created yet. -/
def udDraft : UserData :=
  ⟨some "Aspirin", some "08:00", some exDosage, none, none, none, none, none, false⟩

/-- A deletion session offering two medicines: one with a single active
reminder, one with two. -/
def udDel : UserData :=
  ⟨none, none, none, none,
   some [⟨1, "A", [⟨1, "08:00", "d1", true⟩]⟩,
         ⟨2, "B", [⟨3, "09:00", "d3", true⟩, ⟨4, "10:00", "d4", true⟩]⟩],
   none, none, none, false⟩

/-! ## Theorems -/

/-- C8: every Persistent Store operation, on a storage error, returns its
fail-closed default (False, none, the empty list, or 0) and leaves the store
unchanged, and being a total function it cannot propagate an exception. -/
theorem database_fail_closed (s : Store) (tid uid : Int) (un : Option String)
    (tz name time dosage : String) (mid rid : Nat) (minutes now : Int) :
    Database.add_user true s tid un tz = (false, s) ∧
    Database.get_user true s tid = none ∧
    Database.add_medicine true s uid name = (none, s) ∧
    Database.add_reminder true s mid time dosage = (false, s) ∧
    Database.get_user_medicines true s uid = [] ∧
    Database.delete_medicine true s mid uid = (false, s) ∧
    Database.delete_reminder true s rid uid = (false, s) ∧
    Database.get_medicine_with_reminders true s mid uid = none ∧
    Database.delete_all_user_medicines true s uid = (0, s) ∧
    Database.get_all_active_reminders true s = [] ∧
    Database.log_reminder_sent true s rid now = (false, s) ∧
    Database.get_recent_reminder_logs true s rid minutes now = [] :=
  ⟨rfl, rfl, rfl, rfl, rfl, rfl, rfl, rfl, rfl, rfl, rfl, rfl⟩

/-- C2: code bug, evaluated at the failing input.  Deleting the only
medicine of user 1 returns true and removes the medicine row, but the
reminder row and its DeliveryRecord remain in the store (foreign-key
enforcement is never switched on, so the declared cascades do not fire), and
a subsequent lookup of the delivery records still returns the record. -/
theorem cascade_bug_child_rows_remain :
    (Database.delete_medicine false sC2 1 1).1 = true ∧
    (Database.delete_medicine false sC2 1 1).2.medicines = [] ∧
    (Database.delete_medicine false sC2 1 1).2.reminders = sC2.reminders ∧
    sC2.reminders ≠ [] ∧
    (Database.delete_medicine false sC2 1 1).2.logs = sC2.logs ∧
    Database.get_recent_reminder_logs false (Database.delete_medicine false sC2 1 1).2 1 2 60 = [⟨1, 1, 0⟩] := by
  decide

/-- C9: dosage validation returns the trimmed input exactly when the trimmed
input is non-empty and either matches one of the unit patterns or has length
at most 50; every other input yields no value. -/
theorem dosage_validation_correct (s : String) :
    validate_dosage s =
      if pyStrip s.data ≠ [] ∧
          (dosagePatterns (pyStrip s.data) = true ∨ (pyStrip s.data).length ≤ 50) then
        some (String.mk (pyStrip s.data))
      else none := by
  unfold validate_dosage
  by_cases h1 : pyStrip s.data = []
  · simp [h1]
  · have h1e : (pyStrip s.data).isEmpty = false := by simp [List.isEmpty_iff, h1]
    by_cases h2 : dosagePatterns (pyStrip s.data) = true
    · simp [h1e, h2, h1]
    · have h2f : dosagePatterns (pyStrip s.data) = false := by
        revert h2
        cases dosagePatterns (pyStrip s.data) <;> simp
      by_cases h3 : (pyStrip s.data).length ≤ 50 <;>
        simp [h1e, h2f, h3, h1]

/-- C7: in each input state of the add flow, invalid input (empty or
over-100-character name, unparseable time, empty dosage or non-matching
dosage longer than 50 characters) emits the re-prompt for that state, stays
in the state, and leaves the session draft and the store untouched. -/
theorem invalid_input_frame :
    (∀ text ud s, ((pyStrip text.data).isEmpty = true ∨ 100 < (pyStrip text.data).length) →
      handle_medicine_name text ud s = ⟨[.invalidName], [], .addingMedicineName, ud, s⟩) ∧
    (∀ text ud s, text ≠ btnCancel → text ≠ btnMorning → text ≠ btnDay →
      text ≠ btnEvening → validate_time_format text = none →
      handle_medicine_time text ud s = ⟨[.invalidTime], [], .addingMedicineTime, ud, s⟩) ∧
    (∀ text ud s, validate_dosage text = none →
      handle_medicine_dosage text ud s = ⟨[.invalidDosage], [], .addingMedicineDosage, ud, s⟩) := by
  refine ⟨fun text ud s h => ?_, fun text ud s hc h1 h2 h3 hv => ?_, fun text ud s hv => ?_⟩
  · have hc : text ≠ btnCancel := by
      rintro rfl
      revert h
      decide
    simp only [handle_medicine_name, if_neg hc]
    simp_all [String.length]
  · simp only [handle_medicine_time, if_neg hc, if_neg h1, if_neg h2, if_neg h3, hv]
  · have hc : text ≠ btnCancel := by
      rintro rfl
      revert hv
      decide
    simp only [handle_medicine_dosage, if_neg hc, hv]

/-- C7 witness: the empty name, an unparseable time and an over-long
non-matching dosage each re-prompt without touching draft or store. -/
theorem invalid_input_frame_witness :
    handle_medicine_name " " udDraft sFresh =
      ⟨[.invalidName], [], .addingMedicineName, udDraft, sFresh⟩ ∧
    handle_medicine_time "25:00" udDraft sFresh =
      ⟨[.invalidTime], [], .addingMedicineTime, udDraft, sFresh⟩ ∧
    handle_medicine_dosage
        (String.mk (List.replicate 60 ('y'))) udDraft sFresh =
      ⟨[.invalidDosage], [], .addingMedicineDosage, udDraft, sFresh⟩ :=
  ⟨invalid_input_frame.1 " " udDraft sFresh (by decide),
   invalid_input_frame.2.1 "25:00" udDraft sFresh (by decide) (by decide) (by decide)
     (by decide) (by decide),
   invalid_input_frame.2.2 (String.mk (List.replicate 60 ('y'))) udDraft sFresh (by decide)⟩

/-- C6: on a valid numeric selection of a medicine for deletion, a medicine
with at most one active reminder goes straight to the single confirmation
with deletion type medicine (no reminder picker), while more than one active
reminder first shows the picker offering the whole-medicine option and one
option per active reminder (time and dosage). -/
theorem deletion_selection_branches (text : String) (ud : UserData) (s : Store)
    (n : Int) (m : MedicineView) (hc : text ≠ btnCancel)
    (hp : pyInt (String.mk (splitDotHead text.data)) = some n)
    (hnn : 0 ≤ n - 1)
    (hm : (ud.medicines_for_deletion.getD [])[(n - 1).toNat]? = some m) :
    ((m.reminders.filter (fun rv => rv.active)).length ≤ 1 →
      handle_medicine_selection_for_deletion text ud s =
        ⟨[.confirmDeleteMedicine m.name], confirmDeleteKb, .confirmingDeletion,
          { ud with selected_medicine := some m, deletion_type := some "medicine" }, s⟩) ∧
    (1 < (m.reminders.filter (fun rv => rv.active)).length →
      handle_medicine_selection_for_deletion text ud s =
        ⟨[.chooseWhatToDelete m.name (m.reminders.filter (fun rv => rv.active)).length],
          deleteWholeOption m.name ::
            ((m.reminders.filter (fun rv => rv.active)).map
              (fun rv => reminderOption rv.time rv.dosage) ++ [btnCancel]),
          .deletingReminderSelect, { ud with selected_medicine := some m }, s⟩) := by
  constructor <;> intro hlen <;>
    simp only [handle_medicine_selection_for_deletion, if_neg hc, hp, if_pos hnn, hm] <;>
    simp [hlen]

/-- C6 witness: in a two-medicine deletion session, selecting the medicine
with one active reminder confirms directly, selecting the one with two
active reminders shows the picker with both kinds of options. -/
theorem deletion_selection_branches_witness :
    handle_medicine_selection_for_deletion "1. A" udDel sFresh =
      ⟨[.confirmDeleteMedicine "A"], confirmDeleteKb, .confirmingDeletion,
        { udDel with selected_medicine := some ⟨1, "A", [⟨1, "08:00", "d1", true⟩]⟩,
                     deletion_type := some "medicine" }, sFresh⟩ ∧
    handle_medicine_selection_for_deletion "2. B" udDel sFresh =
      ⟨[.chooseWhatToDelete "B" 2],
        [deleteWholeOption "B", reminderOption "09:00" "d3",
         reminderOption "10:00" "d4", btnCancel],
        .deletingReminderSelect,
        { udDel with selected_medicine :=
            (some ⟨2, "B", [⟨3, "09:00", "d3", true⟩, ⟨4, "10:00", "d4", true⟩]⟩) }, sFresh⟩ :=
  ⟨(deletion_selection_branches "1. A" udDel sFresh 1
      ⟨1, "A", [⟨1, "08:00", "d1", true⟩]⟩ (by decide) (by decide) (by decide)
      (by decide)).1 (by decide),
   by
    have h := (deletion_selection_branches "2. B" udDel sFresh 2
      ⟨2, "B", [⟨3, "09:00", "d3", true⟩, ⟨4, "10:00", "d4", true⟩]⟩ (by decide)
      (by decide) (by decide) (by decide)).2 (by decide)
    simpa using h⟩

/-- C5 counterexample: with a fully captured draft and the medicine insert
failing, saving emits the failure message and returns to the main menu
(Idle), but the accumulated draft fields are NOT cleared: the medicine name
(and time and dosage) are still in the session afterwards, so the claim that
all draft fields are discarded is false at this input. -/
theorem save_failure_draft_not_cleared_cex :
    (handle_medicine_confirmation true false 1 btnSave udDraft sFresh).replies =
      [.saveError, .mainMenu] ∧
    (handle_medicine_confirmation true false 1 btnSave udDraft sFresh).state =
      .conversationEnd ∧
    ¬((handle_medicine_confirmation true false 1 btnSave udDraft sFresh).ud = emptyUD) ∧
    (handle_medicine_confirmation true false 1 btnSave udDraft sFresh).ud.medicine_name =
      some "Aspirin" := by
  decide

/-- C5 amended: whenever a persistence write fails during the save
transition (the medicine insert returns no id, or the reminder insert
returns false), the handler emits the user-visible failure message and
returns the conversation to Idle (main menu), but the draft fields (name,
time, dosage) are retained in the session store rather than cleared; they
are only discarded when a later flow entry clears the session. -/
theorem save_failure_returns_idle_draft_retained (uid : Int) (ud : UserData)
    (s : Store) :
    (ud.medicine_id = none →
      ∀ errR, handle_medicine_confirmation true errR uid btnSave ud s =
        ⟨[.saveError, .mainMenu], mainMenuKb, .conversationEnd,
          { ud with medicine_id := some none }, s⟩) ∧
    (ud.medicine_id = none →
      handle_medicine_confirmation false true uid btnSave ud s =
        ⟨[.saveError, .mainMenu], mainMenuKb, .conversationEnd,
          { ud with medicine_id := some (some s.nextMedId) },
          (Database.add_medicine false s uid (ud.medicine_name.getD "")).2⟩ ∨
      s.nextMedId = 0) ∧
    (∀ m, ud.medicine_id = some (some m) → m ≠ 0 →
      handle_medicine_confirmation false true uid btnSave ud s =
        ⟨[.saveError, .mainMenu], mainMenuKb, .conversationEnd, ud, s⟩) := by
  have hc : btnSave ≠ btnCancel := by decide
  have he : btnSave ≠ btnEdit := by decide
  refine ⟨fun hid errR => ?_, fun hid => ?_, fun m hid hm => ?_⟩
  · simp [handle_medicine_confirmation, hc, he, hid, Database.add_medicine]
  · by_cases hz : s.nextMedId = 0
    · exact Or.inr hz
    · refine Or.inl ?_
      simp [handle_medicine_confirmation, hc, he, hid, Database.add_medicine,
        Database.add_reminder, hz]
  · simp [handle_medicine_confirmation, hc, he, hid, hm, Database.add_reminder]

/-- C5 witness for the amended claim: the three failure modes at the
concrete draft. -/
theorem save_failure_returns_idle_draft_retained_witness :
    handle_medicine_confirmation true false 1 btnSave udDraft sFresh =
      ⟨[.saveError, .mainMenu], mainMenuKb, .conversationEnd,
        { udDraft with medicine_id := some none }, sFresh⟩ ∧
    handle_medicine_confirmation false true 1 btnSave udDraft sFresh =
      ⟨[.saveError, .mainMenu], mainMenuKb, .conversationEnd,
        { udDraft with medicine_id := some (some 2) },
        (Database.add_medicine false sFresh 1 "Aspirin").2⟩ ∧
    handle_medicine_confirmation false true 1 btnSave
        { udDraft with medicine_id := some (some 5) } sFresh =
      ⟨[.saveError, .mainMenu], mainMenuKb, .conversationEnd,
        { udDraft with medicine_id := some (some 5) }, sFresh⟩ := by
  refine ⟨?_, ?_, ?_⟩
  · exact (save_failure_returns_idle_draft_retained 1 udDraft sFresh).1 rfl false
  · have h := (save_failure_returns_idle_draft_retained 1 udDraft sFresh).2.1 rfl
    rcases h with h | h
    · simpa using h
    · exact absurd h (by decide)
  · exact (save_failure_returns_idle_draft_retained 1
      { udDraft with medicine_id := some (some 5) } sFresh).2.2 5 rfl (by decide)

/-- C10: `delete_medicine` removes exactly the medicines rows matching both
the id and the owning user, and `delete_reminder` exactly the reminders rows
matching the id and owned through one of the user's medicines; each returns
true exactly when such a row existed, and when the target does not exist or
belongs to a different user it returns false and the store is unchanged. -/
theorem deletion_cross_user_isolation (s : Store) (mid rid : Nat) (uid : Int) :
    ((Database.delete_medicine false s mid uid).2 =
      { s with medicines :=
          s.medicines.filter (fun m => !(m.id == mid && m.user_id == uid)) }) ∧
    ((Database.delete_medicine false s mid uid).1 = true ↔
      ∃ m ∈ s.medicines, m.id = mid ∧ m.user_id = uid) ∧
    ((∀ m ∈ s.medicines, ¬(m.id = mid ∧ m.user_id = uid)) →
      Database.delete_medicine false s mid uid = (false, s)) ∧
    ((Database.delete_reminder false s rid uid).2 =
      { s with reminders :=
          s.reminders.filter (fun r => !(r.id == rid &&
            s.medicines.any (fun m => m.id == r.medicine_id && m.user_id == uid))) }) ∧
    ((Database.delete_reminder false s rid uid).1 = true ↔
      ∃ r ∈ s.reminders, r.id = rid ∧
        ∃ m ∈ s.medicines, m.id = r.medicine_id ∧ m.user_id = uid) ∧
    ((∀ r ∈ s.reminders, ¬(r.id = rid ∧
        ∃ m ∈ s.medicines, m.id = r.medicine_id ∧ m.user_id = uid)) →
      Database.delete_reminder false s rid uid = (false, s)) := by
  refine ⟨rfl, ?_, fun h => ?_, rfl, ?_, fun h => ?_⟩
  · simp [Database.delete_medicine, List.isEmpty_iff, List.filter_eq_nil_iff]
  · have hfil : s.medicines.filter
        (fun m => !(m.id == mid && m.user_id == uid)) = s.medicines := by
      apply List.filter_eq_self.mpr
      intro m hm
      have := h m hm
      simp only [Bool.not_eq_true', Bool.and_eq_false_iff, beq_eq_false_iff_ne]
      by_cases h1 : m.id = mid
      · exact Or.inr (fun h2 => this ⟨h1, h2⟩)
      · exact Or.inl h1
    have hnil : s.medicines.filter (fun m => m.id == mid && m.user_id == uid) = [] := by
      apply List.filter_eq_nil_iff.mpr
      intro m hm
      have := h m hm
      simp only [Bool.and_eq_true, beq_iff_eq]
      exact fun hx => this ⟨hx.1, hx.2⟩
    simp only [Database.delete_medicine, hfil, hnil]
    rfl
  · simp [Database.delete_reminder, List.isEmpty_iff, List.filter_eq_nil_iff]
  · have hfil : s.reminders.filter
        (fun r => !(r.id == rid &&
          s.medicines.any (fun m => m.id == r.medicine_id && m.user_id == uid))) =
        s.reminders := by
      apply List.filter_eq_self.mpr
      intro r hr
      have := h r hr
      simp only [Bool.not_eq_true', Bool.and_eq_false_iff, beq_eq_false_iff_ne,
        List.any_eq_false]
      by_cases h1 : r.id = rid
      · refine Or.inr (fun m hm => ?_)
        simp only [Bool.and_eq_true, beq_iff_eq, not_and]
        intro hx hy
        exact this ⟨h1, m, hm, hx, hy⟩
      · exact Or.inl h1
    have hnil : s.reminders.filter (fun r => r.id == rid &&
        s.medicines.any (fun m => m.id == r.medicine_id && m.user_id == uid)) = [] := by
      apply List.filter_eq_nil_iff.mpr
      intro r hr
      have := h r hr
      simp only [Bool.and_eq_true, beq_iff_eq, List.any_eq_true]
      rintro ⟨h1, m, hm, hx, hy⟩
      exact this ⟨h1, m, hm, hx, hy⟩
    simp only [Database.delete_reminder, hfil, hnil]
    rfl

/-- C10 witness: deleting a medicine or a reminder that belongs to another
user returns false and leaves the store unchanged. -/
theorem deletion_cross_user_isolation_witness :
    Database.delete_medicine false sOther 5 1 = (false, sOther) ∧
    Database.delete_reminder false sOther 9 1 = (false, sOther) :=
  ⟨(deletion_cross_user_isolation sOther 5 9 1).2.2.1 (by decide),
   (deletion_cross_user_isolation sOther 5 9 1).2.2.2.2.2 (by decide)⟩

/-- After the delete-all conversation has ended, further messages change
nothing. -/
lemma daStep_ended (uid : Int) (ud : UserData) (s : Store) (inputs : List String) :
    inputs.foldl (daStep uid) (DAPhase.ended, ud, s) = (DAPhase.ended, ud, s) := by
  induction inputs with
  | nil => rfl
  | cons t rest ih => simpa [daStep] using ih

/-- A delete-all confirmation step that is not the exact second-stage token
at the second stage leaves the store unchanged. -/
lemma da_store_frame (uid : Int) (text : String) (ud : UserData) (s : Store)
    (h : ¬(ud.final_delete_all_confirmation = true ∧ text = tokenDA2)) :
    (handle_delete_all_confirmation uid text ud s).store = s := by
  unfold handle_delete_all_confirmation
  by_cases hf : ud.final_delete_all_confirmation
  · have ht : text ≠ tokenDA2 := fun hx => h ⟨hf, hx⟩
    by_cases h0 : text = tokenDA2No
    · simp [hf, h0]
    · simp [hf, h0, ht]
  · simp only [Bool.not_eq_true] at hf
    simp only [hf, Bool.false_eq_true, if_false]
    split_ifs <;> rfl

/-- If a run of the delete-all flow changed the store, the exact second-stage
confirmation token occurs among the inputs. -/
lemma da_token2_of_changed (uid : Int) :
    ∀ (inputs : List String) (phase : DAPhase) (ud : UserData) (s : Store),
      (inputs.foldl (daStep uid) (phase, ud, s)).2.2 ≠ s → tokenDA2 ∈ inputs := by
  intro inputs
  induction inputs with
  | nil => intro phase ud s h; exact absurd rfl h
  | cons t rest ih =>
    intro phase ud s h
    match phase with
    | .ended =>
      rw [List.foldl_cons, show daStep uid (DAPhase.ended, ud, s) t =
        (DAPhase.ended, ud, s) from rfl, daStep_ended] at h
      exact absurd rfl h
    | .confirming =>
      by_cases hcase : ud.final_delete_all_confirmation = true ∧ t = tokenDA2
      · exact hcase.2 ▸ List.mem_cons_self t rest
      · have hs : (handle_delete_all_confirmation uid t ud s).store = s :=
          da_store_frame uid t ud s hcase
        rw [List.foldl_cons] at h
        rcases hp : daStep uid (DAPhase.confirming, ud, s) t with ⟨ph, ud1, s1⟩
        have hs1 : s1 = s := by
          have hx : (daStep uid (DAPhase.confirming, ud, s) t).2.2 = s := by
            simp [daStep, hs]
          rw [hp] at hx
          exact hx
        rw [hp, hs1] at h
        exact List.mem_cons_of_mem t (ih ph ud1 s h)

/-- If a run of the delete-all flow starting before the second stage changed
the store, the first-stage confirmation token occurs among the inputs. -/
lemma da_token1_of_changed (uid : Int) :
    ∀ (inputs : List String) (ud : UserData) (s : Store),
      ud.final_delete_all_confirmation = false →
      (inputs.foldl (daStep uid) (DAPhase.confirming, ud, s)).2.2 ≠ s →
      tokenDA1 ∈ inputs := by
  intro inputs
  induction inputs with
  | nil => intro ud s hf h; exact absurd rfl h
  | cons t rest ih =>
    intro ud s hf h
    by_cases h1 : t = tokenDA1
    · exact h1 ▸ List.mem_cons_self t rest
    · rw [List.foldl_cons] at h
      by_cases h0 : t = tokenDA1No
      · have hstep : daStep uid (DAPhase.confirming, ud, s) t =
            (DAPhase.ended, ud, s) := by
          simp [daStep, handle_delete_all_confirmation, hf, h0]
        rw [hstep, daStep_ended] at h
        exact absurd rfl h
      · have hstep : daStep uid (DAPhase.confirming, ud, s) t =
            (DAPhase.confirming, ud, s) := by
          simp [daStep, handle_delete_all_confirmation, hf, h0, h1]
        rw [hstep] at h
        exact List.mem_cons_of_mem t (ih ud s hf h)

/-- C4: the delete-all flow deletes nothing except at the second stage on
the exact confirmation token; reaching the second stage requires the first,
differently worded token; over any input sequence a store change implies
both tokens were entered; and the deletion itself removes every medicine of
the user, returns their count, and leaves the subsequent listing empty. -/
theorem delete_all_two_stage_guard :
    (∀ (uid : Int) (text : String) (ud : UserData) (s : Store),
      ¬(ud.final_delete_all_confirmation = true ∧ text = tokenDA2) →
      (handle_delete_all_confirmation uid text ud s).store = s) ∧
    (∀ (uid : Int) (text : String) (ud : UserData) (s : Store),
      ud.final_delete_all_confirmation = false →
      (handle_delete_all_confirmation uid text ud s).ud.final_delete_all_confirmation = true →
      text = tokenDA1) ∧
    tokenDA1 ≠ tokenDA2 ∧
    (∀ (uid : Int) (ud : UserData) (s : Store) (inputs : List String),
      ud.final_delete_all_confirmation = false →
      (runDeleteAll uid ud s inputs).2.2 ≠ s →
      tokenDA1 ∈ inputs ∧ tokenDA2 ∈ inputs) ∧
    (∀ (uid : Int) (s : Store),
      Database.delete_all_user_medicines false s uid =
        ((s.medicines.filter (fun m => m.user_id == uid)).length,
         { s with medicines := s.medicines.filter (fun m => !(m.user_id == uid)) }) ∧
      Database.get_user_medicines false
        (Database.delete_all_user_medicines false s uid).2 uid = []) ∧
    (∀ (uid : Int) (ud : UserData) (s : Store),
      ud.final_delete_all_confirmation = true →
      (handle_delete_all_confirmation uid tokenDA2 ud s).store =
        (Database.delete_all_user_medicines false s uid).2 ∧
      (handle_delete_all_confirmation uid tokenDA2 ud s).state = .conversationEnd) := by
  refine ⟨da_store_frame, ?_, by decide, ?_, ?_, ?_⟩
  · intro uid text ud s hf hset
    by_contra h1
    by_cases h0 : text = tokenDA1No
    · simp [handle_delete_all_confirmation, hf, h0] at hset
    · simp [handle_delete_all_confirmation, hf, h0, h1] at hset
  · intro uid ud s inputs hf hch
    exact ⟨da_token1_of_changed uid inputs ud s hf hch,
      da_token2_of_changed uid inputs DAPhase.confirming ud s hch⟩
  · intro uid s
    constructor
    · rfl
    · simp only [Database.delete_all_user_medicines, Database.get_user_medicines,
        if_false, Bool.false_eq_true]
      rw [List.filter_filter]
      have hall : ∀ m : MedicineRow,
          (((m.user_id == uid)) && (!(m.user_id == uid))) = false := by
        intro m
        cases h : (m.user_id == uid) <;> simp [h]
      simp [hall]
  · intro uid ud s hf
    unfold handle_delete_all_confirmation
    rw [if_pos hf, if_neg (by decide : ¬(tokenDA2 = tokenDA2No)),
      if_neg (by simp : ¬(tokenDA2 ≠ tokenDA2))]
    refine ⟨?_, ?_⟩ <;>
      by_cases h01 : 0 < (Database.delete_all_user_medicines false s uid).1 <;>
        simp [h01]

/-- C4 witness: for user 7 with three medicines and five reminders, a run
that changed the store contains both tokens; the deletion returns 3 and the
subsequent listing is empty. -/
theorem delete_all_two_stage_guard_witness :
    (tokenDA1 ∈ ([tokenDA1, tokenDA2] : List String) ∧
      tokenDA2 ∈ ([tokenDA1, tokenDA2] : List String)) ∧
    (Database.delete_all_user_medicines false sThree 7).1 = 3 ∧
    Database.get_user_medicines false
      (Database.delete_all_user_medicines false sThree 7).2 7 = [] :=
  ⟨delete_all_two_stage_guard.2.2.2.1 7 emptyUD sThree [tokenDA1, tokenDA2]
      rfl (by decide),
   by decide,
   (delete_all_two_stage_guard.2.2.2.2.1 7 sThree).2⟩

/-- A digit character has value at most 9. -/
lemma dval_le_of_isDig {c : Char} (h : isDig c = true) : dval c ≤ 9 := by
  simp only [isDig] at h
  have hx := of_decide_eq_true h
  unfold dval
  omega

/-- digitChar of a small number is a digit. -/
lemma isDig_digitChar {n : Nat} (h : n ≤ 9) : isDig (digitChar n) = true := by
  interval_cases n <;> decide

/-- digitChar inverts dval on small numbers. -/
lemma dval_digitChar {n : Nat} (h : n ≤ 9) : dval (digitChar n) = n := by
  interval_cases n <;> decide

/-- The formatter produces the canonical HH:MM shape on in-range input. -/
lemma canonical_fmtHM {h m : Nat} (hh : h ≤ 23) (hm : m ≤ 59) :
    canonicalHHMMB (fmtHM h m) = true := by
  have h1 : h / 10 ≤ 9 := by omega
  have h2 : h % 10 ≤ 9 := by omega
  have h3 : m / 10 ≤ 9 := by omega
  have h4 : m % 10 ≤ 9 := by omega
  simp [canonicalHHMMB, fmtHM, isDig_digitChar h1, isDig_digitChar h2,
    isDig_digitChar h3, isDig_digitChar h4, dval_digitChar h1, dval_digitChar h2,
    dval_digitChar h3, dval_digitChar h4]
  omega

/-- Every success of step four is a formatted in-range time. -/
lemma vtf4_shape (t : List Char) (r : String) (h : vtf4 t = some r) :
    ∃ hh mm, hh ≤ 23 ∧ mm ≤ 59 ∧ r = fmtHM hh mm := by
  unfold vtf4 at h
  rcases hp : pHMM t with _ | ⟨hh, mm⟩ <;> rw [hp] at h <;> dsimp only at h
  · exact absurd h (by simp)
  · split_ifs at h with hr
    exact ⟨hh, mm, hr.1, hr.2, (Option.some.inj h).symm⟩

/-- Every success of step three is a formatted in-range time. -/
lemma vtf3_shape (t : List Char) (r : String) (h : vtf3 t = some r) :
    ∃ hh mm, hh ≤ 23 ∧ mm ≤ 59 ∧ r = fmtHM hh mm := by
  unfold vtf3 at h
  rcases hp : pCompact t with _ | ⟨hh, mm⟩ <;> rw [hp] at h <;> dsimp only at h
  · exact vtf4_shape t r h
  · split_ifs at h with hr
    · exact ⟨hh, mm, hr.1, hr.2, (Option.some.inj h).symm⟩
    · exact vtf4_shape t r h

/-- Every success of step two is a formatted in-range time. -/
lemma vtf2_shape (t : List Char) (r : String) (h : vtf2 t = some r) :
    ∃ hh mm, hh ≤ 23 ∧ mm ≤ 59 ∧ r = fmtHM hh mm := by
  unfold vtf2 at h
  rcases hp : pHour t with _ | hh <;> rw [hp] at h <;> dsimp only at h
  · exact vtf3_shape t r h
  · split_ifs at h with hr
    · exact ⟨hh, 0, hr, by omega, (Option.some.inj h).symm⟩
    · exact vtf3_shape t r h

/-- Every success of the validator is a formatted in-range time. -/
lemma vtf1_shape (t : List Char) (r : String) (h : vtf1 t = some r) :
    ∃ hh mm, hh ≤ 23 ∧ mm ≤ 59 ∧ r = fmtHM hh mm := by
  unfold vtf1 at h
  rcases hp : pColon t with _ | ⟨hh, mm⟩ <;> rw [hp] at h <;> dsimp only at h
  · exact vtf2_shape t r h
  · split_ifs at h with hr
    · exact ⟨hh, mm, hr.1, hr.2, (Option.some.inj h).symm⟩
    · exact vtf2_shape t r h

lemma vtf1_isSome (t : List Char) : (vtf1 t).isSome = timeGrammarB t := by
  have hcol : isDig ':' = false := by decide
  rcases t with _ | ⟨a, _ | ⟨b, _ | ⟨c, _ | ⟨d, _ | ⟨e, _ | ⟨f, rest⟩⟩⟩⟩⟩⟩
  · rfl
  -- [a] : bare one-digit hour
  · by_cases hd : isDig a = true
    · have h9 : dval a ≤ 9 := dval_le_of_isDig hd
      have h23 : dval a ≤ 23 := by omega
      simp [vtf1, pColon, vtf2, pHour, timeGrammarB, bareHourB, colonFormB,
        compactFormB, hd, h23]
    · simp [vtf1, pColon, vtf2, pHour, vtf3, pCompact, vtf4, pHMM, timeGrammarB,
        bareHourB, colonFormB, compactFormB, hd]
  -- [a, b] : bare two-digit hour
  · by_cases hd1 : isDig a = true <;> by_cases hd2 : isDig b = true
    · have h9a : dval a ≤ 9 := dval_le_of_isDig hd1
      have h9b : dval b ≤ 9 := dval_le_of_isDig hd2
      by_cases hC : dval a ≤ 1 ∨ (dval a = 2 ∧ dval b ≤ 3)
      · have h23 : 10 * dval a + dval b ≤ 23 := by omega
        simp [vtf1, pColon, vtf2, pHour, timeGrammarB, bareHourB, colonFormB,
          compactFormB, hd1, hd2, hC, h23]
      · have h23 : ¬(10 * dval a + dval b ≤ 23) := by omega
        simp [vtf1, pColon, vtf2, pHour, vtf3, pCompact, vtf4, pHMM, timeGrammarB,
          bareHourB, colonFormB, compactFormB, hd1, hd2, hC, h23]
    all_goals
      simp [vtf1, pColon, vtf2, pHour, vtf3, pCompact, vtf4, pHMM, timeGrammarB,
        bareHourB, colonFormB, compactFormB, hd1, hd2]
  -- [a, b, c] : compact three-digit form
  · by_cases hd1 : isDig a = true <;> by_cases hd2 : isDig b = true <;>
      by_cases hd3 : isDig c = true
    · have h9a : dval a ≤ 9 := dval_le_of_isDig hd1
      have h9b : dval b ≤ 9 := dval_le_of_isDig hd2
      have h9c : dval c ≤ 9 := dval_le_of_isDig hd3
      have h23 : dval a ≤ 23 := by omega
      by_cases hm : 10 * dval b + dval c ≤ 59
      · simp [vtf1, pColon, vtf2, pHour, vtf3, pCompact, timeGrammarB, bareHourB,
          colonFormB, compactFormB, hd1, hd2, hd3, h23, hm]
      · simp [vtf1, pColon, vtf2, pHour, vtf3, pCompact, vtf4, pHMM, timeGrammarB,
          bareHourB, colonFormB, compactFormB, hd1, hd2, hd3, h23, hm]
    all_goals
      simp [vtf1, pColon, vtf2, pHour, vtf3, pCompact, vtf4, pHMM, timeGrammarB,
        bareHourB, colonFormB, compactFormB, hd1, hd2, hd3]
  -- [a, b, c, d] : H:MM or compact four-digit form
  · by_cases hb : b = ':'
    · subst hb
      by_cases hd1 : isDig a = true <;> by_cases hd3 : isDig c = true <;>
        by_cases hd4 : isDig d = true
      · have h9a : dval a ≤ 9 := dval_le_of_isDig hd1
        have h9c : dval c ≤ 9 := dval_le_of_isDig hd3
        have h9d : dval d ≤ 9 := dval_le_of_isDig hd4
        have h23 : dval a ≤ 23 := by omega
        by_cases hm1 : dval c ≤ 5
        · have hm : 10 * dval c + dval d ≤ 59 := by omega
          simp [vtf1, pColon, timeGrammarB, bareHourB, colonFormB, compactFormB,
            hd1, hd3, hd4, hm1, hm, h23, hcol]
        · have hm : ¬(10 * dval c + dval d ≤ 59) := by omega
          simp [vtf1, pColon, vtf2, pHour, vtf3, pCompact, vtf4, pHMM, timeGrammarB,
            bareHourB, colonFormB, compactFormB, hd1, hd3, hd4, hm1, hm, hcol]
      all_goals
        simp [vtf1, pColon, vtf2, pHour, vtf3, pCompact, vtf4, pHMM, timeGrammarB,
          bareHourB, colonFormB, compactFormB, hd1, hd3, hd4, hcol]
    · by_cases hd1 : isDig a = true <;> by_cases hd2 : isDig b = true <;>
        by_cases hd3 : isDig c = true <;> by_cases hd4 : isDig d = true
      · have h9a : dval a ≤ 9 := dval_le_of_isDig hd1
        have h9b : dval b ≤ 9 := dval_le_of_isDig hd2
        have h9c : dval c ≤ 9 := dval_le_of_isDig hd3
        have h9d : dval d ≤ 9 := dval_le_of_isDig hd4
        by_cases hh : 10 * dval a + dval b ≤ 23 <;>
          by_cases hm : 10 * dval c + dval d ≤ 59 <;>
            simp [vtf1, pColon, vtf2, pHour, vtf3, pCompact, vtf4, pHMM, timeGrammarB,
              bareHourB, colonFormB, compactFormB, hd1, hd2, hd3, hd4, hb, hh, hm]
      all_goals
        simp [vtf1, pColon, vtf2, pHour, vtf3, pCompact, vtf4, pHMM, timeGrammarB,
          bareHourB, colonFormB, compactFormB, hd1, hd2, hd3, hd4, hb]
  -- [a, b, c, d, e] : HH:MM form
  · by_cases hc : c = ':'
    · subst hc
      by_cases hd1 : isDig a = true <;> by_cases hd2 : isDig b = true <;>
        by_cases hd4 : isDig d = true <;> by_cases hd5 : isDig e = true
      · have h9a : dval a ≤ 9 := dval_le_of_isDig hd1
        have h9b : dval b ≤ 9 := dval_le_of_isDig hd2
        have h9d : dval d ≤ 9 := dval_le_of_isDig hd4
        have h9e : dval e ≤ 9 := dval_le_of_isDig hd5
        by_cases hC : dval a ≤ 1 ∨ (dval a = 2 ∧ dval b ≤ 3)
        · by_cases hm1 : dval d ≤ 5
          · have h23 : 10 * dval a + dval b ≤ 23 := by omega
            have hm : 10 * dval d + dval e ≤ 59 := by omega
            simp [vtf1, pColon, timeGrammarB, bareHourB, colonFormB, compactFormB,
              hd1, hd2, hd4, hd5, hC, hm1, h23, hm]
          · have hm : ¬(10 * dval d + dval e ≤ 59) := by omega
            simp [vtf1, pColon, vtf2, pHour, vtf3, pCompact, vtf4, pHMM,
              timeGrammarB, bareHourB, colonFormB, compactFormB,
              hd1, hd2, hd4, hd5, hC, hm1, hm]
        · have h23 : ¬(10 * dval a + dval b ≤ 23) := by omega
          simp [vtf1, pColon, vtf2, pHour, vtf3, pCompact, vtf4, pHMM,
            timeGrammarB, bareHourB, colonFormB, compactFormB,
            hd1, hd2, hd4, hd5, hC, h23]
      all_goals
        simp [vtf1, pColon, vtf2, pHour, vtf3, pCompact, vtf4, pHMM, timeGrammarB,
          bareHourB, colonFormB, compactFormB, hd1, hd2, hd4, hd5]
    · simp [vtf1, pColon, vtf2, pHour, vtf3, pCompact, vtf4, pHMM, timeGrammarB,
        bareHourB, colonFormB, compactFormB, hc]
  -- six or more characters: everything rejects
  · rfl

/-- C3: time normalization succeeds exactly on the grammar the specification
describes (bare hour, H:MM/HH:MM colon form, or compact 3-4 digit form, with
hour in [0,23] and minute in [0,59]), applied to the trimmed input; and
every returned value has the canonical HH:MM shape with in-range fields. -/
theorem time_normalization_correct (s : String) :
    ((validate_time_format s).isSome = timeGrammarB (pyStrip s.data)) ∧
    ∀ r, validate_time_format s = some r → canonicalHHMMB r = true := by
  constructor
  · exact vtf1_isSome (pyStrip s.data)
  · intro r hr
    obtain ⟨hh, mm, h1, h2, h3⟩ := vtf1_shape (pyStrip s.data) r hr
    exact h3 ▸ canonical_fmtHM h1 h2

/-- C3 witness: the specification examples normalize as stated and carry the
canonical shape. -/
theorem time_normalization_correct_witness :
    validate_time_format "8" = some "08:00" ∧
    validate_time_format "830" = some "08:30" ∧
    validate_time_format "1245" = some "12:45" ∧
    canonicalHHMMB "08:30" = true ∧ canonicalHHMMB "12:45" = true ∧
    (validate_time_format "2460").isSome = timeGrammarB (pyStrip ("2460").data) :=
  ⟨by decide, by decide, by decide,
   (time_normalization_correct "830").2 "08:30" (by decide),
   (time_normalization_correct "1245").2 "12:45" (by decide),
   (time_normalization_correct "2460").1⟩

/-- A tick only ever appends delivery records: users, medicines and
reminders tables are untouched by the fold. -/
lemma tickStep_tables (tz : String → Int → String) (send : Int → String → Bool)
    (now : Int) (p : Store × List SentRecord) (x : ActiveReminderRow) :
    (tickStep tz send now p x).1.users = p.1.users ∧
    (tickStep tz send now p x).1.medicines = p.1.medicines ∧
    (tickStep tz send now p x).1.reminders = p.1.reminders := by
  simp only [tickStep]
  split_ifs <;> simp [Database.log_reminder_sent]

/-- Table preservation extended along the fold. -/
lemma tick_fold_tables (tz : String → Int → String) (send : Int → String → Bool)
    (now : Int) :
    ∀ (rows : List ActiveReminderRow) (p : Store × List SentRecord),
      (rows.foldl (tickStep tz send now) p).1.users = p.1.users ∧
      (rows.foldl (tickStep tz send now) p).1.medicines = p.1.medicines ∧
      (rows.foldl (tickStep tz send now) p).1.reminders = p.1.reminders := by
  intro rows
  induction rows with
  | nil => intro p; exact ⟨rfl, rfl, rfl⟩
  | cons x xs ih =>
    intro p
    rw [List.foldl_cons]
    have h1 := tickStep_tables tz send now p x
    have h2 := ih (tickStep tz send now p x)
    exact ⟨h2.1.trans h1.1, h2.2.1.trans h1.2.1, h2.2.2.trans h1.2.2⟩

/-- The active-reminder join reads only the untouched tables. -/
lemma join_after_tick (tz : String → Int → String) (send : Int → String → Bool)
    (now : Int) (s : Store) :
    Database.get_all_active_reminders false (check_and_send_reminders tz send now s).1 =
      Database.get_all_active_reminders false s := by
  obtain ⟨h1, h2, h3⟩ :=
    tick_fold_tables tz send now (Database.get_all_active_reminders false s) (s, [])
  have h1x : (check_and_send_reminders tz send now s).1.users = s.users := h1
  have h2x : (check_and_send_reminders tz send now s).1.medicines = s.medicines := h2
  have h3x : (check_and_send_reminders tz send now s).1.reminders = s.reminders := h3
  simp only [Database.get_all_active_reminders, if_false, Bool.false_eq_true,
    h1x, h2x, h3x]

/-- If some delivery record for a reminder lies within the dedup window, the
fold neither appends a record for that reminder nor sends for it. -/
lemma tick_fold_blocked (tz : String → Int → String) (send : Int → String → Bool)
    (now : Int) (rid : Nat) :
    ∀ (rows : List ActiveReminderRow) (st : Store) (acc : List SentRecord),
      (∃ l ∈ st.logs, l.reminder_id = rid ∧ now - 120 < l.sent_at) →
      ((rows.foldl (tickStep tz send now) (st, acc)).1.logs.filter
          (fun l => l.reminder_id == rid) =
        st.logs.filter (fun l => l.reminder_id == rid)) ∧
      ((rows.foldl (tickStep tz send now) (st, acc)).2.filter
          (fun e => e.reminder_id == rid) =
        acc.filter (fun e => e.reminder_id == rid)) := by
  intro rows
  induction rows with
  | nil => intro st acc hex; exact ⟨rfl, rfl⟩
  | cons x xs ih =>
    intro st acc hex
    rw [List.foldl_cons]
    by_cases hdue : tz x.timezone now = x.time
    · by_cases hrec : (Database.get_recent_reminder_logs false st x.reminder_id 2 now).isEmpty = true
      · -- the reminder fires; it cannot be the blocked one
        have hne : x.reminder_id ≠ rid := by
          intro hxe
          obtain ⟨l, hl, hlr, hls⟩ := hex
          have : l ∈ Database.get_recent_reminder_logs false st x.reminder_id 2 now := by
            simp only [Database.get_recent_reminder_logs, if_false, Bool.false_eq_true,
              List.mem_filter]
            refine ⟨hl, ?_⟩
            simp only [Bool.and_eq_true, beq_iff_eq, decide_eq_true_eq]
            constructor
            · rw [hlr, hxe]
            · omega
          rw [List.isEmpty_iff] at hrec
          rw [hrec] at this
          exact absurd this (List.not_mem_nil l)
        by_cases hok : send x.telegram_id
            (format_reminder_message x.medicine_name x.dosage x.time) = true
        · have hstep : tickStep tz send now (st, acc) x =
              ((Database.log_reminder_sent false st x.reminder_id now).2,
               acc ++ [⟨x.reminder_id, x.telegram_id,
                 format_reminder_message x.medicine_name x.dosage x.time⟩]) := by
            simp [tickStep, hdue, hrec, hok]
          rw [hstep]
          have hex2 : ∃ l ∈ (Database.log_reminder_sent false st x.reminder_id now).2.logs,
              l.reminder_id = rid ∧ now - 120 < l.sent_at := by
            obtain ⟨l, hl, hlr, hls⟩ := hex
            exact ⟨l, by simp [Database.log_reminder_sent, hl], hlr, hls⟩
          have hrw := ih (Database.log_reminder_sent false st x.reminder_id now).2
            (acc ++ [⟨x.reminder_id, x.telegram_id,
              format_reminder_message x.medicine_name x.dosage x.time⟩]) hex2
          refine ⟨hrw.1.trans ?_, hrw.2.trans ?_⟩
          · simp [Database.log_reminder_sent, List.filter_append, hne]
          · simp [List.filter_append, hne]
        · have hstep : tickStep tz send now (st, acc) x =
              (st, acc ++ [⟨x.reminder_id, x.telegram_id,
                format_reminder_message x.medicine_name x.dosage x.time⟩]) := by
            simp [tickStep, hdue, hrec, hok]
          rw [hstep]
          have hrw := ih st (acc ++ [⟨x.reminder_id, x.telegram_id,
            format_reminder_message x.medicine_name x.dosage x.time⟩]) hex
          refine ⟨hrw.1, hrw.2.trans ?_⟩
          simp [List.filter_append, hne]
      · have hstep : tickStep tz send now (st, acc) x = (st, acc) := by
          simp [tickStep, hdue, hrec]
        rw [hstep]
        exact ih st acc hex
    · have hstep : tickStep tz send now (st, acc) x = (st, acc) := by
        simp [tickStep, hdue]
      rw [hstep]
      exact ih st acc hex

/-- A tick whose join yields exactly one due, unblocked reminder with a
successful send appends exactly one delivery record and performs exactly one
Notifier invocation. -/
lemma tick_once (tz : String → Int → String) (send : Int → String → Bool)
    (s : Store) (row : ActiveReminderRow) (t1 : Int)
    (hjoin : Database.get_all_active_reminders false s = [row])
    (hdue : tz row.timezone t1 = row.time)
    (hlogs : s.logs.filter (fun l => l.reminder_id == row.reminder_id) = [])
    (hsend : send row.telegram_id
      (format_reminder_message row.medicine_name row.dosage row.time) = true) :
    check_and_send_reminders tz send t1 s =
      ((Database.log_reminder_sent false s row.reminder_id t1).2,
       [⟨row.reminder_id, row.telegram_id,
         format_reminder_message row.medicine_name row.dosage row.time⟩]) := by
  have hrec : Database.get_recent_reminder_logs false s row.reminder_id 2 t1 = [] := by
    simp only [Database.get_recent_reminder_logs, if_false, Bool.false_eq_true]
    apply List.filter_eq_nil_iff.mpr
    intro l hl
    have hno := List.filter_eq_nil_iff.mp hlogs l hl
    simp only [Bool.and_eq_true, not_and]
    intro hb
    exact absurd hb hno
  simp only [check_and_send_reminders, hjoin, List.foldl_cons, List.foldl_nil]
  simp [tickStep, hdue, hrec, hsend]

/-- C1: (a) for any reminder that has a DeliveryRecord inside the 2-minute
dedup window ending at the tick instant, the tick sends nothing for it and
appends no DeliveryRecord for it; (b) consequently, for a single due
reminder with a successful send and two consecutive ticks within the dedup
window, exactly one DeliveryRecord is created and the Notifier is invoked
exactly once. -/
theorem tick_dedup_idempotent :
    (∀ (tz : String → Int → String) (send : Int → String → Bool) (now : Int)
        (s : Store) (rid : Nat),
      (∃ l ∈ s.logs, l.reminder_id = rid ∧ now - 120 < l.sent_at) →
      ((check_and_send_reminders tz send now s).1.logs.filter
          (fun l => l.reminder_id == rid) =
        s.logs.filter (fun l => l.reminder_id == rid)) ∧
      (check_and_send_reminders tz send now s).2.filter
        (fun e => e.reminder_id == rid) = []) ∧
    (∀ (tz : String → Int → String) (send : Int → String → Bool)
        (s : Store) (row : ActiveReminderRow) (t1 t2 : Int),
      Database.get_all_active_reminders false s = [row] →
      tz row.timezone t1 = row.time →
      s.logs.filter (fun l => l.reminder_id == row.reminder_id) = [] →
      send row.telegram_id
        (format_reminder_message row.medicine_name row.dosage row.time) = true →
      t1 ≤ t2 → t2 < t1 + 120 →
      ((check_and_send_reminders tz send t1 s).2 =
        [⟨row.reminder_id, row.telegram_id,
          format_reminder_message row.medicine_name row.dosage row.time⟩]) ∧
      ((check_and_send_reminders tz send t1 s).1.logs =
        s.logs ++ [⟨s.nextLogId, row.reminder_id, t1⟩]) ∧
      check_and_send_reminders tz send t2 (check_and_send_reminders tz send t1 s).1 =
        ((check_and_send_reminders tz send t1 s).1, [])) := by
  constructor
  · intro tz send now s rid hex
    have h := tick_fold_blocked tz send now rid
      (Database.get_all_active_reminders false s) s [] hex
    exact ⟨h.1, h.2⟩
  · intro tz send s row t1 t2 hjoin hdue hlogs hsend h12 hwin
    have hr1 := tick_once tz send s row t1 hjoin hdue hlogs hsend
    refine ⟨by rw [hr1], by rw [hr1]; simp [Database.log_reminder_sent], ?_⟩
    have hjoin2 : Database.get_all_active_reminders false
        (Database.log_reminder_sent false s row.reminder_id t1).2 = [row] := by
      have hj := join_after_tick tz send t1 s
      rw [hr1] at hj
      exact hj.trans hjoin
    rw [hr1]
    simp only [check_and_send_reminders, hjoin2, List.foldl_cons, List.foldl_nil]
    by_cases hdue2 : tz row.timezone t2 = row.time
    · have hmem : (⟨s.nextLogId, row.reminder_id, t1⟩ : LogRow) ∈
          Database.get_recent_reminder_logs false
            (Database.log_reminder_sent false s row.reminder_id t1).2
            row.reminder_id 2 t2 := by
        simp only [Database.get_recent_reminder_logs, Database.log_reminder_sent,
          if_false, Bool.false_eq_true, List.mem_filter]
        refine ⟨by simp, ?_⟩
        simp only [Bool.and_eq_true, beq_iff_eq, decide_eq_true_eq]
        exact ⟨by trivial, by omega⟩
      have hne : (Database.get_recent_reminder_logs false
          (Database.log_reminder_sent false s row.reminder_id t1).2
          row.reminder_id 2 t2).isEmpty = false := by
        rcases hE : Database.get_recent_reminder_logs false
            (Database.log_reminder_sent false s row.reminder_id t1).2
            row.reminder_id 2 t2 with _ | ⟨y, ys⟩
        · rw [hE] at hmem
          exact absurd hmem (List.not_mem_nil _)
        · rfl
      simp [tickStep, hdue2, hne]
    · simp [tickStep, hdue2]

/-- C1 witness: one active reminder due at both ticks (same rendered local
minute), ticks 60 seconds apart: the first tick sends once and records once,
the second tick changes nothing and sends nothing. -/
theorem tick_dedup_idempotent_witness :
    ((check_and_send_reminders (fun _ _ => "08:30") (fun _ _ => true) 1000 sFresh).2 =
      [⟨1, 1, format_reminder_message "Aspirin" exDosage "08:30"⟩]) ∧
    ((check_and_send_reminders (fun _ _ => "08:30") (fun _ _ => true) 1000 sFresh).1.logs =
      sFresh.logs ++ [⟨1, 1, 1000⟩]) ∧
    check_and_send_reminders (fun _ _ => "08:30") (fun _ _ => true) 1060
        (check_and_send_reminders (fun _ _ => "08:30") (fun _ _ => true) 1000 sFresh).1 =
      ((check_and_send_reminders (fun _ _ => "08:30") (fun _ _ => true) 1000 sFresh).1, []) := by
  have h := tick_dedup_idempotent.2 (fun _ _ => "08:30") (fun _ _ => true) sFresh
    ⟨1, "08:30", exDosage, "Aspirin", 1, "Europe/Kiev"⟩ 1000 1060
    (by decide) rfl rfl rfl (by decide) (by decide)
  exact ⟨h.1, h.2.1, h.2.2⟩
